import Mathlib

/-!
Shallow embedding of the kindle-periodical-sender controllers and the Feed model.

The embedding covers:
- `src/unnamed/part_000` : `NewsletterController` (class with static service fields,
  actions `listAllFromLoggedUser`, `listAll`, `findById`, `create`, `edit`, `activate`,
  `deactivate`, `remove`, and the static helpers `getPermissions` and `validate`);
- `src/unnamed/part_001` : `UserController` (actions `listAll`, `findById`, `remove`,
  `create`, `edit`, `promote`, and the same two static helpers);
- `src/app/models/feed.js` : the `Feed` model and its `getEncoding` method.

The service layer (`UserService`, `NewsletterService`), the pagination helper and the
HTTP status module are collaborators of this repository that are not under `src/`;
they are modelled from the spec where an action's behaviour depends on them, each with
a doc comment that says so.  Controller actions are modelled as pure functions from a
persistent `Store` and a `Request` to an `Outcome`: the ordered list of HTTP responses
the action writes, an optional terminating error (a thrown `APIError`, or a JavaScript
`ReferenceError` for an unbound identifier), and the resulting store.  Crucially, the
embedding keeps two behaviours of the source that a tidier reimplementation would not
have: `validate` writes a 422 response but does not stop the caller, and the self-only
branch of `UserController.remove` falls through into the generic path after deleting.
-/

/-- HTTP status codes used by the controllers (`http-status` collaborator). -/
def HttpStatus.OK : Nat := 200
def HttpStatus.CREATED : Nat := 201
def HttpStatus.NO_CONTENT : Nat := 204
def HttpStatus.BAD_REQUEST : Nat := 400
def HttpStatus.UNAUTHORIZED : Nat := 401
def HttpStatus.FORBIDDEN : Nat := 403
def HttpStatus.NOT_FOUND : Nat := 404
def HttpStatus.UNPROCESSABLE_ENTITY : Nat := 422

/-- A persisted user record, with the fields the controllers read:
`id`, `name`, `email`, `super`, `pendingConfirm`, `pendingPassword`. -/
structure User where
  id : Nat
  name : String
  email : String
  super : Bool
  pendingConfirm : Bool
  pendingPassword : Bool
deriving DecidableEq, Repr

/-- A persisted newsletter record with its owning-user identifier. -/
structure Newsletter where
  id : Nat
  userId : Nat
  name : String
  active : Bool
deriving DecidableEq, Repr

/-- The persistent state behind the two services. -/
structure Store where
  users : List User
  newsletters : List Newsletter
deriving DecidableEq, Repr

/-- The request-body payload fields the controllers read
(`userId`, `name`, `email`, `password`, `pendingConfirm`, `super`). -/
structure BodyDto where
  userId : Nat
  name : String
  email : String
  password : String
  pendingConfirm : Bool
  super : Bool
deriving DecidableEq, Repr

/-- An HTTP-style request as the controllers see it: the authenticated caller id
(`req.userId`), the parsed path parameter (`parseInt(req.params.id)`), the query
fields (`page`, `size`, `name`, and the boolean `loggedUser` flag that only
`listAllFromLoggedUser` ever sets), the validation errors collected by the
`express-validator` middleware, and the body payload. -/
structure Request where
  userId : Nat
  paramsId : Nat
  queryPage : Nat
  querySize : Nat
  queryName : Option String
  queryLoggedUser : Bool
  validationErrors : List String
  body : BodyDto
deriving DecidableEq, Repr

/-- `APIError` as thrown by the controllers: a status class plus a message. -/
inductive APIError where
  | unauthorized (msg : String)
  | forbidden (msg : String)
  | notFound (msg : String)
  | badRequest (msg : String)
deriving DecidableEq, Repr

/-- A terminating failure of an action body: a thrown `APIError`, or the JavaScript
`ReferenceError` raised when an identifier is not bound in any enclosing scope. -/
inductive Err where
  | api (e : APIError)
  | referenceError (ident : String)
deriving DecidableEq, Repr

/-- A page envelope produced by the pagination helper. -/
structure Page (α : Type) where
  items : List α
  page : Nat
  size : Nat
  totalItems : Nat
deriving DecidableEq, Repr

/-- One JSON response written to `res` by an action. -/
inductive Response where
  | validationFailed (errors : List String)
  | newsletterPage (p : Page Newsletter)
  | userPage (p : Page User)
  | jsonUser (status : Nat) (u : Option User)
  | jsonNewsletter (status : Nat) (n : Newsletter)
  | jsonMessage (status : Nat) (key : String)
  | noContent
deriving DecidableEq, Repr

/-- The observable outcome of running one controller action: the responses written in
order, the error that terminated the body (if any), and the store left behind. -/
structure Outcome where
  responses : List Response
  error : Option Err
  store : Store
deriving DecidableEq, Repr

/-- The permissions object built by `getPermissions` in both controllers. -/
structure Permissions where
  loggedUser : User
  permissionOnlyHimself : Bool
  permissionSuper : Bool
deriving DecidableEq, Repr

/-- The list-endpoint filter object (`Pagination.getFilter` output plus the fields the
controllers assign onto it: `userId` and `name`). -/
structure QueryFilter where
  page : Nat
  size : Nat
  name : Option String
  userId : Option Nat
deriving DecidableEq, Repr

/-- Substring containment on strings (the name filter of the list endpoints). -/
def strContains (s pat : String) : Bool :=
  decide (pat.data <:+: s.data)

/-- Modelled from the spec: the identity/resource store lookup `findById` of the
`UserService` collaborator (its source is not under `src/`); returns the user record
with the given id, or null. -/
def UserService.findById (s : Store) (id : Nat) : Option User :=
  s.users.find? (fun u => u.id == id)

/-- Modelled from the spec: `UserService` persistence `remove(entity)` deletes the
record with the entity's id from the store. -/
def UserService.remove (s : Store) (u : User) : Store :=
  { s with users := s.users.filter (fun v => v.id != u.id) }

/-- Modelled from the spec: `UserService.save(dto)` inserts a new user record built
from the dto fields (id assignment and the initial pending flags are the store
collaborator's concern; modelled as a fresh id and cleared flags). -/
def UserService.save (s : Store) (name email : String) (superUser : Bool) :
    User × Store :=
  let u : User := { id := s.users.length + 1, name := name, email := email,
                    super := superUser, pendingConfirm := false,
                    pendingPassword := false }
  (u, { s with users := s.users ++ [u] })

/-- Modelled from the spec: `UserService.edit(entity, dto)` updates the entity's
name and email (password handling is the store collaborator's concern) and returns
the edited record. -/
def UserService.editApply (u : User) (dto : BodyDto) : User :=
  { u with name := dto.name, email := dto.email }

/-- Modelled from the spec: the store update behind `UserService.edit`. -/
def UserService.editStore (s : Store) (u : User) (dto : BodyDto) : Store :=
  let users := s.users.map (fun v => if v.id == u.id then UserService.editApply v dto else v)
  { s with users := users }

/-- Modelled from the spec: `UserService.editById(id, dto)` updates name, email and
`pendingConfirm` of the record with the given id. -/
def UserService.editByIdApply (u : User) (dto : BodyDto) : User :=
  { u with name := dto.name, email := dto.email, pendingConfirm := dto.pendingConfirm }

/-- Modelled from the spec: the store update behind `UserService.editById`. -/
def UserService.editByIdStore (s : Store) (id : Nat) (dto : BodyDto) : Store :=
  let users := s.users.map (fun v => if v.id == id then UserService.editByIdApply v dto else v)
  { s with users := users }

/-- Modelled from the spec: `UserService.promote(id)` grants the super privilege to
the record with the given id; per the glossary the grant awaits confirmation, so the
record becomes `super` with `pendingConfirm` set. -/
def UserService.promote (s : Store) (id : Nat) : Option User × Store :=
  let users := s.users.map
    (fun v => if v.id == id then { v with super := true, pendingConfirm := true } else v)
  let s' : Store := { s with users := users }
  (UserService.findById s' id, s')

/-- Modelled from the spec: `NewsletterService.findById`. -/
def NewsletterService.findById (s : Store) (id : Nat) : Option Newsletter :=
  s.newsletters.find? (fun n => n.id == id)

/-- Modelled from the spec: `NewsletterService.findAll(filter)` applies the filter's
optional owning-user restriction and optional name-containment restriction. -/
def NewsletterService.findAll (s : Store) (f : QueryFilter) : List Newsletter :=
  s.newsletters.filter (fun n =>
    (match f.userId with
     | some uid => n.userId == uid
     | none => true) &&
    (match f.name with
     | some q => strContains n.name q
     | none => true))

/-- Modelled from the spec: `UserService.findAll(filter)` applies the filter's
optional name-containment restriction. -/
def UserService.findAll (s : Store) (f : QueryFilter) : List User :=
  s.users.filter (fun u =>
    match f.name with
    | some q => strContains u.name q
    | none => true)

/-- Modelled from the spec: `NewsletterService.save(dto)` inserts a newsletter built
from the dto (id assignment is the store collaborator's concern). -/
def NewsletterService.save (s : Store) (dto : BodyDto) : Newsletter × Store :=
  let n : Newsletter := { id := s.newsletters.length + 1, userId := dto.userId,
                          name := dto.name, active := true }
  (n, { s with newsletters := s.newsletters ++ [n] })

/-- Modelled from the spec: `NewsletterService.edit(entity, dto)` updates the
entity's fields, including its owning-user identifier, and returns it. -/
def NewsletterService.editApply (n : Newsletter) (dto : BodyDto) : Newsletter :=
  { n with userId := dto.userId, name := dto.name }

/-- Modelled from the spec: the store update behind `NewsletterService.edit`. -/
def NewsletterService.editStore (s : Store) (n : Newsletter) (dto : BodyDto) : Store :=
  let rows := s.newsletters.map (fun m => if m.id == n.id then NewsletterService.editApply m dto else m)
  { s with newsletters := rows }

/-- Modelled from the spec: `NewsletterService.activate(entity)`. -/
def NewsletterService.activate (s : Store) (n : Newsletter) : Store :=
  let rows := s.newsletters.map (fun m => if m.id == n.id then { m with active := true } else m)
  { s with newsletters := rows }

/-- Modelled from the spec: `NewsletterService.deactivate(entity)`. -/
def NewsletterService.deactivate (s : Store) (n : Newsletter) : Store :=
  let rows := s.newsletters.map (fun m => if m.id == n.id then { m with active := false } else m)
  { s with newsletters := rows }

/-- Modelled from the spec: `NewsletterService.remove(entity)`. -/
def NewsletterService.remove (s : Store) (n : Newsletter) : Store :=
  { s with newsletters := s.newsletters.filter (fun m => m.id != n.id) }

/-- Modelled from the spec: `Pagination.getFilter(req.query)` reads `page` and `size`
from the query; `name` and `userId` start unset and are assigned by the controllers. -/
def Pagination.getFilter (req : Request) : QueryFilter :=
  { page := req.queryPage, size := req.querySize, name := none, userId := none }

/-- Modelled from the spec: `Pagination.getPagingData` wraps the page-sized slice of
the result rows as a page envelope. -/
def Pagination.getPagingData {α : Type} (rows : List α) (page size : Nat) : Page α :=
  { items := (rows.drop (page * size)).take size, page := page, size := size,
    totalItems := rows.length }

/-- Modelled from the spec: `Pagination.getPagingDataForSingle` wraps one entity as a
degenerate single-item page. -/
def Pagination.getPagingDataForSingle {α : Type} (x : α) (page size : Nat) : Page α :=
  { items := [x], page := page, size := size, totalItems := 1 }

/-- `NewsletterController.validate` (part_000 lines 163-167): when the collected
validation result is non-empty it writes a 422 response with the structured error
list — and returns to the caller, which continues executing. -/
def NewsletterController.validate (req : Request) : List Response :=
  if req.validationErrors.isEmpty then [] else [.validationFailed req.validationErrors]

/-- `UserController.validate` (part_001 lines 157-161): identical to the newsletter
controller's helper. -/
def UserController.validate (req : Request) : List Response :=
  if req.validationErrors.isEmpty then [] else [.validationFailed req.validationErrors]

/-- `NewsletterController.getPermissions` (part_000 lines 146-161): resolve the
caller record (`Unauthorized` if absent), optionally block on a pending mandatory
password change (`Forbidden`), then derive the two permission booleans. -/
def NewsletterController.getPermissions (s : Store) (userId : Nat)
    (blockedByChangePassword : Bool) : Except Err Permissions :=
  match UserService.findById s userId with
  | none => .error (.api (.unauthorized "Logged user cannot be found!"))
  | some loggedUser =>
    if blockedByChangePassword && loggedUser.pendingPassword then
      .error (.api (.forbidden
        "You must change your password before proceeding with this operation."))
    else
      .ok { loggedUser := loggedUser,
            permissionOnlyHimself :=
              (!loggedUser.super) || (loggedUser.super && loggedUser.pendingConfirm),
            permissionSuper := loggedUser.super && !loggedUser.pendingConfirm }

/-- `UserController.getPermissions` (part_001 lines 140-155): same logic as the
newsletter controller's helper, with the i18n message keys of that file. -/
def UserController.getPermissions (s : Store) (userId : Nat)
    (blockChangePassword : Bool) : Except Err Permissions :=
  match UserService.findById s userId with
  | none => .error (.api (.unauthorized "auth.logged-user-not-found"))
  | some loggedUser =>
    if blockChangePassword && loggedUser.pendingPassword then
      .error (.api (.forbidden "auth.pendant-change-temporary-password"))
    else
      .ok { loggedUser := loggedUser,
            permissionOnlyHimself :=
              (!loggedUser.super) || (loggedUser.super && loggedUser.pendingConfirm),
            permissionSuper := loggedUser.super && !loggedUser.pendingConfirm }

/-- `Feed` model attributes (`src/app/models/feed.js`); the source attribute
`partial` is spelled `isPartial` here because `partial` is a Lean keyword. -/
structure Feed where
  name : String
  url : String
  author : String
  isPartial : Bool
  subject : String
  locale : String
  articleSelector : String
  maxPosts : Nat
  updatePeriodicity : Nat
  dayOfWeek : Nat
deriving DecidableEq, Repr

/-- JavaScript `String.prototype.toLowerCase` on one character: for the ASCII range
the locale-insensitive lowering maps `A`-`Z` (codes 65-90) down by 32. -/
def jsToLowerChar (c : Char) : Char :=
  if c.toNat ≥ 65 ∧ c.toNat ≤ 90 then Char.ofNat (c.toNat + 32) else c

/-- JavaScript `String.prototype.toLowerCase`, as `getEncoding` applies it to the
locale strings of the `Feed` model. -/
def jsToLowerCase (s : String) : String :=
  ⟨s.data.map jsToLowerChar⟩

/-- `Feed.getEncoding` (feed.js lines 21-29): switch on the lowercased locale, with
the `pt-br` and `en-us` cases sharing the `Windows-1252` return and every other
locale falling to the `UTF-8` default. -/
def Feed.getEncoding (f : Feed) : String :=
  if jsToLowerCase f.locale = "pt-br" ∨ jsToLowerCase f.locale = "en-us" then
    "Windows-1252"
  else "UTF-8"

/-- `NewsletterController.listAll` (part_000 lines 18-32): run validation, resolve
permissions with default gating, build the filter (restricting to the caller's own
newsletters when the caller is self-only or the `loggedUser` query flag is the
boolean `true`, and copying a truthy `name` query onto the filter), then respond
with the page envelope for the filtered rows. -/
def NewsletterController.listAll (s : Store) (req : Request) : Outcome :=
  let vresp := NewsletterController.validate req
  match NewsletterController.getPermissions s req.userId true with
  | .error e => ⟨vresp, some e, s⟩
  | .ok perms =>
    let f0 := Pagination.getFilter req
    let f1 := if perms.permissionOnlyHimself || req.queryLoggedUser then
        { f0 with userId := some perms.loggedUser.id } else f0
    let f2 := match req.queryName with
      | some n => if n = "" then f1 else { f1 with name := some n }
      | none => f1
    let json := Pagination.getPagingData (NewsletterService.findAll s f2) f2.page f2.size
    ⟨vresp ++ [.newsletterPage json], none, s⟩

/-- The identifiers bound in the module scope of part_000: the six `require`d
bindings, the destructured `userLogger`, the class declaration, and the Node module
wrapper names.  Instance methods of the class are not bare identifiers. -/
def newsletterModuleScope : List String :=
  ["HttpStatus", "APIError", "validationResult", "UserService", "NewsletterService",
   "Pagination", "userLogger", "NewsletterController", "require", "module", "exports"]

/-- JavaScript identifier resolution as seen from a method body of part_000: the
method's own locals and parameters, else the module scope. -/
def jsResolve (locals : List String) (ident : String) : Bool :=
  (locals ++ newsletterModuleScope).contains ident

/-- `NewsletterController.listAllFromLoggedUser` (part_000 lines 13-16): assigns
`req.query.loggedUser = true` and then invokes the bare identifier `listAll`; the
method's scope binds only `req` and `res`, so evaluation of that identifier raises a
`ReferenceError` before any response is written. -/
def NewsletterController.listAllFromLoggedUser (s : Store) (req : Request) : Outcome :=
  let req' := { req with queryLoggedUser := true }
  if jsResolve ["req", "res"] "listAll" then NewsletterController.listAll s req'
  else ⟨[], some (.referenceError "listAll"), s⟩

/-- `NewsletterController.findById` (part_000 lines 34-47). -/
def NewsletterController.findById (s : Store) (req : Request) : Outcome :=
  let vresp := NewsletterController.validate req
  match NewsletterController.getPermissions s req.userId true with
  | .error e => ⟨vresp, some e, s⟩
  | .ok perms =>
    match NewsletterService.findById s req.paramsId with
    | none => ⟨vresp, some (.api (.notFound "Newsletter not found")), s⟩
    | some requestedNewsletter =>
      if perms.permissionOnlyHimself && requestedNewsletter.userId != perms.loggedUser.id then
        ⟨vresp, some (.api (.forbidden "You cannot access newsletter from another user")), s⟩
      else
        ⟨vresp ++ [.jsonNewsletter HttpStatus.OK requestedNewsletter], none, s⟩

/-- `NewsletterController.create` (part_000 lines 49-60). -/
def NewsletterController.create (s : Store) (req : Request) : Outcome :=
  let vresp := NewsletterController.validate req
  let newsletterDto := req.body
  match NewsletterController.getPermissions s req.userId true with
  | .error e => ⟨vresp, some e, s⟩
  | .ok perms =>
    if perms.permissionOnlyHimself && perms.loggedUser.id != newsletterDto.userId then
      ⟨vresp, some (.api (.forbidden
        "You dont have privileges to create newsletters from another users")), s⟩
    else
      let saved := NewsletterService.save s newsletterDto
      ⟨vresp ++ [.jsonNewsletter HttpStatus.CREATED saved.1], none, saved.2⟩

/-- `NewsletterController.edit` (part_000 lines 62-81): load the target
(`NotFound` if absent), then for a self-only caller check ownership of the existing
target and absence of an ownership transfer in the submitted dto, as two separate
`Forbidden` checks, before persisting the edit. -/
def NewsletterController.edit (s : Store) (req : Request) : Outcome :=
  let vresp := NewsletterController.validate req
  match NewsletterController.getPermissions s req.userId true with
  | .error e => ⟨vresp, some e, s⟩
  | .ok perms =>
    let newsletterDto := req.body
    match NewsletterService.findById s req.paramsId with
    | none => ⟨vresp, some (.api (.notFound "Newsletter not found")), s⟩
    | some requestedNewsletter =>
      if perms.permissionOnlyHimself && perms.loggedUser.id != requestedNewsletter.userId then
        ⟨vresp, some (.api (.forbidden
          "You dont have privileges to edit newsletters of another users")), s⟩
      else if perms.permissionOnlyHimself && requestedNewsletter.userId != newsletterDto.userId then
        ⟨vresp, some (.api (.forbidden
          "You dont have privileges to transfer newsletters to another users")), s⟩
      else
        let edited := NewsletterService.editApply requestedNewsletter newsletterDto
        ⟨vresp ++ [.jsonNewsletter HttpStatus.OK edited], none,
          NewsletterService.editStore s requestedNewsletter newsletterDto⟩

/-- `NewsletterController.activate` (part_000 lines 83-103). -/
def NewsletterController.activate (s : Store) (req : Request) : Outcome :=
  let vresp := NewsletterController.validate req
  match NewsletterController.getPermissions s req.userId true with
  | .error e => ⟨vresp, some e, s⟩
  | .ok perms =>
    match NewsletterService.findById s req.paramsId with
    | none => ⟨vresp, some (.api (.notFound "Newsletter not found")), s⟩
    | some requestedNewsletter =>
      if perms.permissionOnlyHimself && perms.loggedUser.id != requestedNewsletter.userId then
        ⟨vresp, some (.api (.forbidden
          "You dont have privileges to edit newsletters of another users")), s⟩
      else
        ⟨vresp ++ [.jsonMessage HttpStatus.OK "Newsletter was activated successfully"],
          none, NewsletterService.activate s requestedNewsletter⟩

/-- `NewsletterController.deactivate` (part_000 lines 105-125). -/
def NewsletterController.deactivate (s : Store) (req : Request) : Outcome :=
  let vresp := NewsletterController.validate req
  match NewsletterController.getPermissions s req.userId true with
  | .error e => ⟨vresp, some e, s⟩
  | .ok perms =>
    match NewsletterService.findById s req.paramsId with
    | none => ⟨vresp, some (.api (.notFound "Newsletter not found")), s⟩
    | some requestedNewsletter =>
      if perms.permissionOnlyHimself && perms.loggedUser.id != requestedNewsletter.userId then
        ⟨vresp, some (.api (.forbidden
          "You dont have privileges to edit newsletters of another users")), s⟩
      else
        ⟨vresp ++ [.jsonMessage HttpStatus.OK "Newsletter was deactivated successfully"],
          none, NewsletterService.deactivate s requestedNewsletter⟩

/-- `NewsletterController.remove` (part_000 lines 127-144). -/
def NewsletterController.remove (s : Store) (req : Request) : Outcome :=
  let vresp := NewsletterController.validate req
  match NewsletterController.getPermissions s req.userId true with
  | .error e => ⟨vresp, some e, s⟩
  | .ok perms =>
    match NewsletterService.findById s req.paramsId with
    | none => ⟨vresp, some (.api (.notFound "Newsletter not found")), s⟩
    | some requestedNewsletter =>
      if perms.permissionOnlyHimself && perms.loggedUser.id != requestedNewsletter.userId then
        ⟨vresp, some (.api (.forbidden
          "You dont have privileges to edit newsletters of another users")), s⟩
      else
        ⟨vresp ++ [.noContent], none, NewsletterService.remove s requestedNewsletter⟩

/-- `UserController.listAll` (part_001 lines 10-24): a non-self-only caller gets the
page envelope of the filtered user rows; a self-only caller gets their own record as
a degenerate single-item page. -/
def UserController.listAll (s : Store) (req : Request) : Outcome :=
  let vresp := UserController.validate req
  match UserController.getPermissions s req.userId true with
  | .error e => ⟨vresp, some e, s⟩
  | .ok perms =>
    let f0 := Pagination.getFilter req
    let f := match req.queryName with
      | some n => if n = "" then f0 else { f0 with name := some n }
      | none => f0
    let json := if !perms.permissionOnlyHimself then
        Response.userPage (Pagination.getPagingData (UserService.findAll s f) f.page f.size)
      else
        Response.userPage (Pagination.getPagingDataForSingle perms.loggedUser f.page f.size)
    ⟨vresp ++ [json], none, s⟩

/-- `UserController.findById` (part_001 lines 26-47): permissions are resolved with
the pending-password gate disabled; a self-only caller is compared by identity before
any resource load (the resource is the caller), then blocked if a password change is
pending; otherwise the target is loaded and `NotFound` raised if absent. -/
def UserController.findById (s : Store) (req : Request) : Outcome :=
  let vresp := UserController.validate req
  match UserController.getPermissions s req.userId false with
  | .error e => ⟨vresp, some e, s⟩
  | .ok perms =>
    let requestedId := req.paramsId
    if perms.permissionOnlyHimself then
      if perms.loggedUser.id != requestedId then
        ⟨vresp, some (.api (.forbidden "user.not-have-privileges-to-another-user-data")), s⟩
      else if perms.loggedUser.pendingPassword then
        ⟨vresp, some (.api (.forbidden "auth.pendant-change-temporary-password")), s⟩
      else
        ⟨vresp ++ [.jsonUser HttpStatus.OK (some perms.loggedUser)], none, s⟩
    else
      match UserService.findById s requestedId with
      | none => ⟨vresp, some (.api (.notFound "user.not-found")), s⟩
      | some requestedUser =>
        ⟨vresp ++ [.jsonUser HttpStatus.OK (some requestedUser)], none, s⟩

/-- The code of `UserController.remove` from part_001 line 64 onwards: the
generic-deletion path.  The self-only branch above it does not return after
responding, so it falls through into this code with the caller already deleted. -/
def UserController.removeTail (s : Store) (resps : List Response) (loggedUser : User)
    (requestedId : Nat) : Outcome :=
  if loggedUser.id == requestedId && loggedUser.pendingPassword then
    ⟨resps, some (.api (.forbidden "auth.pendant-change-temporary-password")), s⟩
  else
    match UserService.findById s requestedId with
    | none => ⟨resps, some (.api (.notFound "user.not-found")), s⟩
    | some requestedUser =>
      ⟨resps ++ [.noContent], none, UserService.remove s requestedUser⟩

/-- `UserController.remove` (part_001 lines 49-75): permissions resolved with the
pending-password gate disabled; the self-only branch checks identity, then the
pending password, deletes the caller and responds 204 — and, lacking a return,
execution continues into the generic path (`UserController.removeTail`). -/
def UserController.remove (s : Store) (req : Request) : Outcome :=
  let vresp := UserController.validate req
  match UserController.getPermissions s req.userId false with
  | .error e => ⟨vresp, some e, s⟩
  | .ok perms =>
    let loggedUser := perms.loggedUser
    let requestedId := req.paramsId
    if perms.permissionOnlyHimself then
      if loggedUser.id != requestedId then
        ⟨vresp, some (.api (.forbidden "user.not-have-privileges-to-delete-users")), s⟩
      else if loggedUser.pendingPassword then
        ⟨vresp, some (.api (.forbidden "auth.pendant-change-temporary-password")), s⟩
      else
        UserController.removeTail (UserService.remove s loggedUser)
          (vresp ++ [.noContent]) loggedUser requestedId
    else
      UserController.removeTail s vresp loggedUser requestedId

/-- `UserController.create` (part_001 lines 77-90). -/
def UserController.create (s : Store) (req : Request) : Outcome :=
  let vresp := UserController.validate req
  match UserController.getPermissions s req.userId true with
  | .error e => ⟨vresp, some e, s⟩
  | .ok perms =>
    if perms.permissionOnlyHimself then
      ⟨vresp, some (.api (.forbidden "user.not-have-privileges-to-create-users")), s⟩
    else
      let saved := UserService.save s req.body.name req.body.email req.body.super
      ⟨vresp ++ [.jsonUser HttpStatus.CREATED (some saved.1)], none, saved.2⟩

/-- `UserController.edit` (part_001 lines 92-117). -/
def UserController.edit (s : Store) (req : Request) : Outcome :=
  let vresp := UserController.validate req
  match UserController.getPermissions s req.userId true with
  | .error e => ⟨vresp, some e, s⟩
  | .ok perms =>
    let requestedId := req.paramsId
    if perms.permissionOnlyHimself then
      if perms.loggedUser.id != requestedId then
        ⟨vresp, some (.api (.forbidden "user.not-have-privileges-to-edit-users")), s⟩
      else
        let edited := UserService.editApply perms.loggedUser req.body
        ⟨vresp ++ [.jsonUser HttpStatus.OK (some edited)], none,
          UserService.editStore s perms.loggedUser req.body⟩
    else
      let edited := (UserService.findById s requestedId).map
        (fun u => UserService.editByIdApply u req.body)
      ⟨vresp ++ [.jsonUser HttpStatus.OK edited], none,
        UserService.editByIdStore s requestedId req.body⟩

/-- `UserController.promote` (part_001 lines 119-138): the `super` permission is
checked first (`Forbidden` without it), then self-promotion is rejected with
`BadRequest`, and only then is the promotion persisted. -/
def UserController.promote (s : Store) (req : Request) : Outcome :=
  let vresp := UserController.validate req
  match UserController.getPermissions s req.userId true with
  | .error e => ⟨vresp, some e, s⟩
  | .ok perms =>
    if !perms.permissionSuper then
      ⟨vresp, some (.api (.forbidden "user.not-have-privileges-to-promote-users")), s⟩
    else
      let requestedId := req.paramsId
      if perms.loggedUser.id == requestedId then
        ⟨vresp, some (.api (.badRequest "user.not-have-privileges-to-promote-yourself")), s⟩
      else
        let promoted := UserService.promote s requestedId
        ⟨vresp ++ [.jsonMessage HttpStatus.OK "user.promotion-successfully"], none, promoted.2⟩

/-! Concrete fixtures used by the witnesses below. -/

def uPlain : User := ⟨1, "Alice", "alice@example.com", false, false, false⟩
def uSuper : User := ⟨2, "Root", "root@example.com", true, false, false⟩
def uSuperPending : User := ⟨3, "Newroot", "newroot@example.com", true, true, false⟩
def uPwd : User := ⟨4, "Locked", "locked@example.com", false, false, true⟩
def nlWeekly : Newsletter := ⟨10, 1, "Weekly News", true⟩
def nlOther : Newsletter := ⟨11, 2, "Daily Digest", true⟩
def sFix : Store := ⟨[uPlain, uSuper, uSuperPending, uPwd], [nlWeekly, nlOther]⟩
def dto0 : BodyDto := ⟨1, "Weekly News", "", "", false, false⟩

/-- C1: `getPermissions` in both controllers computes
`permissionOnlyHimself = !super || (super && pendingConfirm)` and
`permissionSuper = super && !pendingConfirm` for the resolved caller record; hence a
non-super caller gets `onlyHimself = true` and `super = false` for either value of
`pendingConfirm`, a super caller with a pending confirmation gets `onlyHimself = true`
and `super = false`, and a super caller with no pending confirmation gets
`onlyHimself = false` and `super = true`. -/
theorem getPermissions_flags (s : Store) (uid : Nat) (b : Bool) (u : User)
    (hfind : UserService.findById s uid = some u)
    (hpw : (b && u.pendingPassword) = false) :
    NewsletterController.getPermissions s uid b =
      .ok ⟨u, !u.super || (u.super && u.pendingConfirm), u.super && !u.pendingConfirm⟩ ∧
    UserController.getPermissions s uid b =
      .ok ⟨u, !u.super || (u.super && u.pendingConfirm), u.super && !u.pendingConfirm⟩ ∧
    (u.super = false →
      (!u.super || (u.super && u.pendingConfirm)) = true ∧
      (u.super && !u.pendingConfirm) = false) ∧
    (u.super = true → u.pendingConfirm = true →
      (!u.super || (u.super && u.pendingConfirm)) = true ∧
      (u.super && !u.pendingConfirm) = false) ∧
    (u.super = true → u.pendingConfirm = false →
      (!u.super || (u.super && u.pendingConfirm)) = false ∧
      (u.super && !u.pendingConfirm) = true) := by
  refine ⟨?_, ?_, ?_, ?_, ?_⟩
  · simp [NewsletterController.getPermissions, hfind, hpw]
  · simp [UserController.getPermissions, hfind, hpw]
  · intro h; simp [h]
  · intro h1 h2; simp [h1, h2]
  · intro h1 h2; simp [h1, h2]

theorem getPermissions_flags_witness :
    NewsletterController.getPermissions sFix 2 true = .ok ⟨uSuper, false, true⟩ ∧
    UserController.getPermissions sFix 3 true = .ok ⟨uSuperPending, true, false⟩ := by
  constructor
  · exact (getPermissions_flags sFix 2 true uSuper rfl rfl).1
  · exact (getPermissions_flags sFix 3 true uSuperPending rfl rfl).2.1

/-- C9: `NewsletterController.listAllFromLoggedUser` invokes the bare identifier
`listAll`, which is bound neither among the method's locals nor in the module scope
of part_000, so for every store and request the action raises a `ReferenceError`
before writing any response, and the logged-user newsletter listing endpoint can
never return a newsletter list. -/
theorem listAllFromLoggedUser_referenceError (s : Store) (req : Request) :
    NewsletterController.listAllFromLoggedUser s req =
      ⟨[], some (.referenceError "listAll"), s⟩ := by
  have h : jsResolve ["req", "res"] "listAll" = false := by decide
  simp [NewsletterController.listAllFromLoggedUser, h]

/-- C10: `Feed.getEncoding` returns `Windows-1252` exactly when the lowercased
locale is `pt-br` or `en-us`, and `UTF-8` for every other locale. -/
theorem feed_getEncoding_windows1252 (f : Feed) :
    (f.getEncoding = "Windows-1252" ↔
      (jsToLowerCase f.locale = "pt-br" ∨ jsToLowerCase f.locale = "en-us")) ∧
    (¬(jsToLowerCase f.locale = "pt-br" ∨ jsToLowerCase f.locale = "en-us") →
      f.getEncoding = "UTF-8") := by
  unfold Feed.getEncoding
  by_cases h1 : jsToLowerCase f.locale = "pt-br"
  · rw [if_pos (Or.inl h1)]
    exact ⟨⟨fun _ => Or.inl h1, fun _ => rfl⟩, fun hc => absurd (Or.inl h1) hc⟩
  · by_cases h2 : jsToLowerCase f.locale = "en-us"
    · rw [if_pos (Or.inr h2)]
      exact ⟨⟨fun _ => Or.inr h2, fun _ => rfl⟩, fun hc => absurd (Or.inr h2) hc⟩
    · have hn : ¬(jsToLowerCase f.locale = "pt-br" ∨ jsToLowerCase f.locale = "en-us") := by
        rintro (h | h)
        · exact h1 h
        · exact h2 h
      rw [if_neg hn]
      exact ⟨⟨fun he => absurd he (by decide), fun hc => absurd hc hn⟩, fun _ => rfl⟩

theorem feed_getEncoding_witness :
    Feed.getEncoding ⟨"Diario", "http://d", "a", false, "news", "pt-BR", "h1", 10, 1, 0⟩ =
      "Windows-1252" ∧
    Feed.getEncoding ⟨"Le Monde", "http://m", "a", false, "news", "fr-FR", "h1", 10, 1, 0⟩ =
      "UTF-8" := by
  constructor
  · exact (feed_getEncoding_windows1252 _).1.mpr (Or.inl (by decide))
  · exact (feed_getEncoding_windows1252 _).2 (by decide)

/-- An `.ok` result of `UserController.getPermissions` pins down how the caller was
resolved: the store lookup at the caller id found exactly the permissions object's
`loggedUser`, and that record's id field equals the caller id. -/
theorem UserController.getPermissions_ok (s : Store) (uid : Nat) (b : Bool)
    (p : Permissions) (h : UserController.getPermissions s uid b = .ok p) :
    UserService.findById s uid = some p.loggedUser ∧ p.loggedUser.id = uid := by
  unfold UserController.getPermissions at h
  cases hf : UserService.findById s uid with
  | none => simp [hf] at h
  | some u =>
    simp only [hf] at h
    by_cases hb : (b && u.pendingPassword) = true
    · simp only [if_pos hb] at h
      exact absurd h (by simp)
    · simp only [if_neg hb] at h
      injection h with h2
      subst h2
      refine ⟨rfl, ?_⟩
      have hp := List.find?_some hf
      simpa using hp

/-- C2: for every caller of `promote`: when the resolved `permissionSuper` flag is
false the action fails `Forbidden` — even when the target id is the caller's own,
which shows the super check is performed before the self-promotion check — and a
caller with `permissionSuper` invoking promote on their own id always fails
`BadRequest` with the store unchanged and no response written, so self-promotion
never succeeds. -/
theorem promote_requires_super_and_rejects_self (s : Store) (req : Request)
    (perms : Permissions) (hval : req.validationErrors = [])
    (hperm : UserController.getPermissions s req.userId true = .ok perms) :
    (perms.permissionSuper = false →
      UserController.promote s req =
        ⟨[], some (.api (.forbidden "user.not-have-privileges-to-promote-users")), s⟩) ∧
    (perms.permissionSuper = true → req.paramsId = perms.loggedUser.id →
      UserController.promote s req =
        ⟨[], some (.api (.badRequest "user.not-have-privileges-to-promote-yourself")), s⟩) := by
  constructor
  · intro hs
    simp [UserController.promote, UserController.validate, hval, hperm, hs]
  · intro hs hid
    simp [UserController.promote, UserController.validate, hval, hperm, hs, hid]

theorem promote_witness :
    UserController.promote sFix ⟨1, 1, 0, 10, none, false, [], dto0⟩ =
      ⟨[], some (.api (.forbidden "user.not-have-privileges-to-promote-users")), sFix⟩ ∧
    UserController.promote sFix ⟨2, 2, 0, 10, none, false, [], dto0⟩ =
      ⟨[], some (.api (.badRequest "user.not-have-privileges-to-promote-yourself")), sFix⟩ := by
  constructor
  · exact (promote_requires_super_and_rejects_self sFix ⟨1, 1, 0, 10, none, false, [], dto0⟩
      ⟨uPlain, true, false⟩ rfl rfl).1 rfl
  · exact (promote_requires_super_and_rejects_self sFix ⟨2, 2, 0, 10, none, false, [], dto0⟩
      ⟨uSuper, false, true⟩ rfl rfl).2 rfl rfl

/-- C3: a read-by-id on a non-existent target yields `NotFound` for every resolved
caller, privileged or not: newsletter `findById` loads the target first and raises
`NotFound` before its ownership check can raise `Forbidden`, and user `findById`
does the same on its generic path.  The only exception is the self-only user lookup
shortcut, where identity equality is checked before any resource load; a
non-existent target id is necessarily different from the self-only caller's own id
(the caller's record exists), so that path raises its identity `Forbidden` without
ever loading a resource. -/
theorem readById_notFound_precedes_forbidden (s : Store) (req : Request)
    (permsN permsU : Permissions) (hval : req.validationErrors = [])
    (hN : NewsletterController.getPermissions s req.userId true = .ok permsN)
    (hU : UserController.getPermissions s req.userId false = .ok permsU)
    (hnl : NewsletterService.findById s req.paramsId = none)
    (hu : UserService.findById s req.paramsId = none) :
    NewsletterController.findById s req =
      ⟨[], some (.api (.notFound "Newsletter not found")), s⟩ ∧
    (permsU.permissionOnlyHimself = false →
      UserController.findById s req =
        ⟨[], some (.api (.notFound "user.not-found")), s⟩) ∧
    (permsU.permissionOnlyHimself = true →
      UserController.findById s req =
        ⟨[], some (.api (.forbidden "user.not-have-privileges-to-another-user-data")), s⟩) := by
  refine ⟨?_, ?_, ?_⟩
  · simp [NewsletterController.findById, NewsletterController.validate, hval, hN, hnl]
  · intro honly
    simp [UserController.findById, UserController.validate, hval, hU, honly, hu]
  · intro honly
    have hres := UserController.getPermissions_ok s req.userId false permsU hU
    have hne : permsU.loggedUser.id ≠ req.paramsId := by
      intro he
      have hpe : req.paramsId = req.userId := by rw [← he, hres.2]
      rw [hpe, hres.1] at hu
      exact Option.noConfusion hu
    have hbne : (permsU.loggedUser.id != req.paramsId) = true := bne_iff_ne.mpr hne
    simp [UserController.findById, UserController.validate, hval, hU, honly, hbne]

theorem readById_witness :
    NewsletterController.findById sFix ⟨1, 99, 0, 10, none, false, [], dto0⟩ =
      ⟨[], some (.api (.notFound "Newsletter not found")), sFix⟩ ∧
    UserController.findById sFix ⟨2, 99, 0, 10, none, false, [], dto0⟩ =
      ⟨[], some (.api (.notFound "user.not-found")), sFix⟩ ∧
    UserController.findById sFix ⟨1, 99, 0, 10, none, false, [], dto0⟩ =
      ⟨[], some (.api (.forbidden "user.not-have-privileges-to-another-user-data")), sFix⟩ := by
  refine ⟨?_, ?_, ?_⟩
  · exact (readById_notFound_precedes_forbidden sFix ⟨1, 99, 0, 10, none, false, [], dto0⟩
      ⟨uPlain, true, false⟩ ⟨uPlain, true, false⟩ rfl rfl rfl rfl rfl).1
  · exact (readById_notFound_precedes_forbidden sFix ⟨2, 99, 0, 10, none, false, [], dto0⟩
      ⟨uSuper, false, true⟩ ⟨uSuper, false, true⟩ rfl rfl rfl rfl rfl).2.1 rfl
  · exact (readById_notFound_precedes_forbidden sFix ⟨1, 99, 0, 10, none, false, [], dto0⟩
      ⟨uPlain, true, false⟩ ⟨uPlain, true, false⟩ rfl rfl rfl rfl rfl).2.2 rfl

/-- With the gating flag on, a pending password change makes
`NewsletterController.getPermissions` fail `Forbidden` at the evaluator itself. -/
theorem newsletterGetPermissions_blocked (s : Store) (uid : Nat) (u : User)
    (hfind : UserService.findById s uid = some u) (hpw : u.pendingPassword = true) :
    NewsletterController.getPermissions s uid true = .error (.api (.forbidden
      "You must change your password before proceeding with this operation.")) := by
  simp [NewsletterController.getPermissions, hfind, hpw]

/-- With the gating flag on, a pending password change makes
`UserController.getPermissions` fail `Forbidden` at the evaluator itself. -/
theorem userGetPermissions_blocked (s : Store) (uid : Nat) (u : User)
    (hfind : UserService.findById s uid = some u) (hpw : u.pendingPassword = true) :
    UserController.getPermissions s uid true = .error (.api (.forbidden
      "auth.pendant-change-temporary-password")) := by
  simp [UserController.getPermissions, hfind, hpw]

/-- C4: a caller whose record has `pendingPassword = true` is stopped by the
permission evaluator of every gated controller action — every action that resolves
permissions with the default gating flag, namely all seven permission-checked
newsletter actions and the user `listAll`, `create`, `edit` and `promote` — with a
`Forbidden` failure, no response written, and the store untouched: the failure
happens before the resource gate, before any lookup of the target and before any
mutation, and in particular it holds for both `edit` actions.  (The user `findById`
and `remove` actions resolve permissions with the flag disabled and perform their
own pending-password checks.) -/
theorem pendingPassword_blocks_gated_actions (s : Store) (req : Request) (u : User)
    (hfind : UserService.findById s req.userId = some u)
    (hpw : u.pendingPassword = true)
    (hval : req.validationErrors = []) :
    NewsletterController.listAll s req = ⟨[], some (.api (.forbidden
      "You must change your password before proceeding with this operation.")), s⟩ ∧
    NewsletterController.findById s req = ⟨[], some (.api (.forbidden
      "You must change your password before proceeding with this operation.")), s⟩ ∧
    NewsletterController.create s req = ⟨[], some (.api (.forbidden
      "You must change your password before proceeding with this operation.")), s⟩ ∧
    NewsletterController.edit s req = ⟨[], some (.api (.forbidden
      "You must change your password before proceeding with this operation.")), s⟩ ∧
    NewsletterController.activate s req = ⟨[], some (.api (.forbidden
      "You must change your password before proceeding with this operation.")), s⟩ ∧
    NewsletterController.deactivate s req = ⟨[], some (.api (.forbidden
      "You must change your password before proceeding with this operation.")), s⟩ ∧
    NewsletterController.remove s req = ⟨[], some (.api (.forbidden
      "You must change your password before proceeding with this operation.")), s⟩ ∧
    UserController.listAll s req = ⟨[], some (.api (.forbidden
      "auth.pendant-change-temporary-password")), s⟩ ∧
    UserController.create s req = ⟨[], some (.api (.forbidden
      "auth.pendant-change-temporary-password")), s⟩ ∧
    UserController.edit s req = ⟨[], some (.api (.forbidden
      "auth.pendant-change-temporary-password")), s⟩ ∧
    UserController.promote s req = ⟨[], some (.api (.forbidden
      "auth.pendant-change-temporary-password")), s⟩ := by
  have hN := newsletterGetPermissions_blocked s req.userId u hfind hpw
  have hU := userGetPermissions_blocked s req.userId u hfind hpw
  refine ⟨?_, ?_, ?_, ?_, ?_, ?_, ?_, ?_, ?_, ?_, ?_⟩
  · simp [NewsletterController.listAll, NewsletterController.validate, hval, hN]
  · simp [NewsletterController.findById, NewsletterController.validate, hval, hN]
  · simp [NewsletterController.create, NewsletterController.validate, hval, hN]
  · simp [NewsletterController.edit, NewsletterController.validate, hval, hN]
  · simp [NewsletterController.activate, NewsletterController.validate, hval, hN]
  · simp [NewsletterController.deactivate, NewsletterController.validate, hval, hN]
  · simp [NewsletterController.remove, NewsletterController.validate, hval, hN]
  · simp [UserController.listAll, UserController.validate, hval, hU]
  · simp [UserController.create, UserController.validate, hval, hU]
  · simp [UserController.edit, UserController.validate, hval, hU]
  · simp [UserController.promote, UserController.validate, hval, hU]

theorem pendingPassword_blocks_witness :
    NewsletterController.edit sFix ⟨4, 10, 0, 10, none, false, [], dto0⟩ =
      ⟨[], some (.api (.forbidden
        "You must change your password before proceeding with this operation.")), sFix⟩ ∧
    UserController.edit sFix ⟨4, 4, 0, 10, none, false, [], dto0⟩ =
      ⟨[], some (.api (.forbidden "auth.pendant-change-temporary-password")), sFix⟩ := by
  constructor
  · exact (pendingPassword_blocks_gated_actions sFix ⟨4, 10, 0, 10, none, false, [], dto0⟩
      uPwd rfl rfl rfl).2.2.2.1
  · exact (pendingPassword_blocks_gated_actions sFix ⟨4, 4, 0, 10, none, false, [], dto0⟩
      uPwd rfl rfl rfl).2.2.2.2.2.2.2.2.2.1

/-- C5: for a self-only caller editing a newsletter that exists: if the caller owns
the existing target but the submitted payload carries an owner id different from the
existing owner, the edit fails `Forbidden` with the transfer message; and if the
caller does not own the existing target the edit fails `Forbidden` with the
ownership message regardless of the payload — the two checks are independent, each
failing on its own, and both leave the store unchanged. -/
theorem newsletterEdit_ownership_and_transfer (s : Store) (req : Request)
    (perms : Permissions) (nl : Newsletter)
    (hval : req.validationErrors = [])
    (hperm : NewsletterController.getPermissions s req.userId true = .ok perms)
    (honly : perms.permissionOnlyHimself = true)
    (hfind : NewsletterService.findById s req.paramsId = some nl) :
    (nl.userId = perms.loggedUser.id → req.body.userId ≠ nl.userId →
      NewsletterController.edit s req = ⟨[], some (.api (.forbidden
        "You dont have privileges to transfer newsletters to another users")), s⟩) ∧
    (nl.userId ≠ perms.loggedUser.id →
      NewsletterController.edit s req = ⟨[], some (.api (.forbidden
        "You dont have privileges to edit newsletters of another users")), s⟩) := by
  constructor
  · intro hown hne
    have h1 : (perms.loggedUser.id != nl.userId) = false := by simp [hown]
    have h2 : (nl.userId != req.body.userId) = true := bne_iff_ne.mpr (Ne.symm hne)
    simp [NewsletterController.edit, NewsletterController.validate, hval, hperm,
      honly, hfind, h1, h2]
  · intro hown
    have h1 : (perms.loggedUser.id != nl.userId) = true := bne_iff_ne.mpr (Ne.symm hown)
    simp [NewsletterController.edit, NewsletterController.validate, hval, hperm,
      honly, hfind, h1]

theorem newsletterEdit_witness :
    NewsletterController.edit sFix
        ⟨1, 10, 0, 10, none, false, [], ⟨2, "Weekly News", "", "", false, false⟩⟩ =
      ⟨[], some (.api (.forbidden
        "You dont have privileges to transfer newsletters to another users")), sFix⟩ ∧
    NewsletterController.edit sFix ⟨1, 11, 0, 10, none, false, [], dto0⟩ =
      ⟨[], some (.api (.forbidden
        "You dont have privileges to edit newsletters of another users")), sFix⟩ := by
  constructor
  · exact (newsletterEdit_ownership_and_transfer sFix
      ⟨1, 10, 0, 10, none, false, [], ⟨2, "Weekly News", "", "", false, false⟩⟩
      ⟨uPlain, true, false⟩ nlWeekly rfl rfl rfl rfl).1 rfl (by decide)
  · exact (newsletterEdit_ownership_and_transfer sFix
      ⟨1, 11, 0, 10, none, false, [], dto0⟩
      ⟨uPlain, true, false⟩ nlOther rfl rfl rfl rfl).2 (by decide)

/-- Every string contains the empty pattern. -/
theorem strContains_empty (s : String) : strContains s "" = true := by
  simp only [strContains, decide_eq_true_eq]
  exact List.nil_infix

/-- Items of a page envelope come from the underlying result rows. -/
theorem Pagination.mem_getPagingData {α : Type} (rows : List α) (page size : Nat)
    (x : α) (hx : x ∈ (Pagination.getPagingData rows page size).items) : x ∈ rows := by
  unfold Pagination.getPagingData at hx
  exact List.mem_of_mem_drop (List.mem_of_mem_take hx)

/-- Rows returned by the newsletter `findAll` satisfy the filter's owning-user
restriction when it is set. -/
theorem NewsletterService.findAll_userId (s : Store) (f : QueryFilter) (uid : Nat)
    (n : Newsletter) (hf : f.userId = some uid)
    (hn : n ∈ NewsletterService.findAll s f) : n.userId = uid := by
  unfold NewsletterService.findAll at hn
  have hp := (List.mem_filter.mp hn).2
  rw [hf] at hp
  simp at hp
  exact hp.1

/-- Rows returned by the newsletter `findAll` satisfy the filter's name-containment
restriction when it is set. -/
theorem NewsletterService.findAll_name (s : Store) (f : QueryFilter) (q : String)
    (n : Newsletter) (hf : f.name = some q)
    (hn : n ∈ NewsletterService.findAll s f) : strContains n.name q = true := by
  unfold NewsletterService.findAll at hn
  have hp := (List.mem_filter.mp hn).2
  rw [hf] at hp
  simp at hp
  exact hp.2

/-- C6: for a self-only caller, both list actions restrict the result set to
resources owned by the caller: newsletter `listAll` assigns `userId := caller.id`
onto the filter, so every item of the returned page envelope is owned by the caller
and also satisfies any requested name filter (which applies regardless of the
restriction, the page being cut per the requested `page`/`size`); and user
`listAll` returns the caller's own record as a single-item page. -/
theorem onlyHimself_list_restriction (s : Store) (req : Request)
    (permsN permsU : Permissions) (hval : req.validationErrors = [])
    (hN : NewsletterController.getPermissions s req.userId true = .ok permsN)
    (hU : UserController.getPermissions s req.userId true = .ok permsU)
    (honlyN : permsN.permissionOnlyHimself = true)
    (honlyU : permsU.permissionOnlyHimself = true) :
    (∃ p : Page Newsletter,
      NewsletterController.listAll s req = ⟨[.newsletterPage p], none, s⟩ ∧
      p.page = req.queryPage ∧ p.size = req.querySize ∧
      ∀ n ∈ p.items, n.userId = permsN.loggedUser.id ∧
        ∀ q, req.queryName = some q → strContains n.name q = true) ∧
    UserController.listAll s req =
      ⟨[.userPage ⟨[permsU.loggedUser], req.queryPage, req.querySize, 1⟩], none, s⟩ := by
  constructor
  · cases hq : req.queryName with
    | none =>
      refine ⟨Pagination.getPagingData (NewsletterService.findAll s
        ⟨req.queryPage, req.querySize, none, some permsN.loggedUser.id⟩)
        req.queryPage req.querySize, ?_, rfl, rfl, ?_⟩
      · simp [NewsletterController.listAll, NewsletterController.validate, hval, hN,
          honlyN, Pagination.getFilter, hq]
      · intro n hn
        refine ⟨NewsletterService.findAll_userId s _ permsN.loggedUser.id n rfl
          (Pagination.mem_getPagingData _ _ _ n hn), ?_⟩
        intro q2 hq2
        exact Option.noConfusion hq2
    | some q =>
      by_cases hq0 : q = ""
      · subst hq0
        refine ⟨Pagination.getPagingData (NewsletterService.findAll s
          ⟨req.queryPage, req.querySize, none, some permsN.loggedUser.id⟩)
          req.queryPage req.querySize, ?_, rfl, rfl, ?_⟩
        · simp [NewsletterController.listAll, NewsletterController.validate, hval, hN,
            honlyN, Pagination.getFilter, hq]
        · intro n hn
          refine ⟨NewsletterService.findAll_userId s _ permsN.loggedUser.id n rfl
            (Pagination.mem_getPagingData _ _ _ n hn), ?_⟩
          intro q2 hq2
          injection hq2 with h3
          subst h3
          exact strContains_empty n.name
      · refine ⟨Pagination.getPagingData (NewsletterService.findAll s
          ⟨req.queryPage, req.querySize, some q, some permsN.loggedUser.id⟩)
          req.queryPage req.querySize, ?_, rfl, rfl, ?_⟩
        · simp [NewsletterController.listAll, NewsletterController.validate, hval, hN,
            honlyN, Pagination.getFilter, hq, hq0]
        · intro n hn
          have hmem := Pagination.mem_getPagingData _ _ _ n hn
          refine ⟨NewsletterService.findAll_userId s _ permsN.loggedUser.id n rfl hmem, ?_⟩
          intro q2 hq2
          injection hq2 with h3
          subst h3
          exact NewsletterService.findAll_name s _ q n rfl hmem
  · cases hq : req.queryName with
    | none =>
      simp [UserController.listAll, UserController.validate, hval, hU, honlyU,
        Pagination.getFilter, Pagination.getPagingDataForSingle, hq]
    | some q =>
      by_cases hq0 : q = "" <;>
        simp [UserController.listAll, UserController.validate, hval, hU, honlyU,
          Pagination.getFilter, Pagination.getPagingDataForSingle, hq, hq0]

theorem onlyHimself_list_witness :
    NewsletterController.listAll sFix ⟨1, 0, 0, 10, some "Weekly", false, [], dto0⟩ =
      ⟨[.newsletterPage ⟨[nlWeekly], 0, 10, 1⟩], none, sFix⟩ ∧
    nlWeekly.userId = uPlain.id ∧ strContains nlWeekly.name "Weekly" = true ∧
    UserController.listAll sFix ⟨1, 0, 0, 10, some "Weekly", false, [], dto0⟩ =
      ⟨[.userPage ⟨[uPlain], 0, 10, 1⟩], none, sFix⟩ := by
  obtain ⟨⟨p, hp, hpage, hsize, hmem⟩, hu⟩ :=
    onlyHimself_list_restriction sFix ⟨1, 0, 0, 10, some "Weekly", false, [], dto0⟩
      ⟨uPlain, true, false⟩ ⟨uPlain, true, false⟩ rfl rfl rfl rfl rfl
  have hconc : NewsletterController.listAll sFix
      ⟨1, 0, 0, 10, some "Weekly", false, [], dto0⟩ =
      ⟨[.newsletterPage ⟨[nlWeekly], 0, 10, 1⟩], none, sFix⟩ := by rfl
  rw [hconc] at hp
  simp only [Outcome.mk.injEq, List.cons.injEq, Response.newsletterPage.injEq,
    and_true, true_and] at hp
  have hm := hmem nlWeekly (by rw [← hp]; simp)
  exact ⟨hconc, hm.1, hm.2 "Weekly" rfl, hu⟩

/-- C7 (code bug): the User controller's `remove` violates the
no-write-before-failure policy.  A self-only caller removing their own record takes
the self-deletion branch, which deletes the record and responds 204 but does not
return; execution falls through into the generic path, which reloads the
now-deleted id and raises `NotFound` — so the same request both mutates the store
(the user is gone in the resulting store) and terminates with a raised failure,
contradicting the policy that a failing action leaves the store unchanged.
Evaluated at the concrete failing input: a store holding only the non-super user
with id 1, and a request from caller 1 targeting id 1. -/
theorem userRemove_self_fallthrough_bug :
    UserController.remove ⟨[uPlain], []⟩ ⟨1, 1, 0, 10, none, false, [], dto0⟩ =
      ⟨[.noContent], some (.api (.notFound "user.not-found")), ⟨[], []⟩⟩ := by
  rfl

/-- C8 (code bug): `validate` writes the 422 field-error response but does not stop
its caller, so a request whose validation result is non-empty still runs every
downstream step.  Evaluated at a concrete failing input — a super caller creating a
newsletter with a non-empty validation error list — the action writes the 422
response, resolves permissions anyway, performs the save mutation, and writes the
201 response on top: permission resolution, loads and mutations are not bypassed. -/
theorem newsletterCreate_invalid_continues_bug :
    NewsletterController.create ⟨[uSuper], []⟩
        ⟨2, 0, 0, 10, none, false, ["name must not be empty"],
          ⟨2, "Hello", "", "", false, false⟩⟩ =
      ⟨[.validationFailed ["name must not be empty"],
        .jsonNewsletter HttpStatus.CREATED ⟨1, 2, "Hello", true⟩],
        none, ⟨[uSuper], [⟨1, 2, "Hello", true⟩]⟩⟩ := by
  rfl
